import Mathlib

/-!
Shallow embedding of `src/forecast_engine.py` (repository
Ayu5h-Benz/Sales-Forecasting-Test) and verification of the specification
claims about its forecast-assembly routine `run_forecast`.

Modelling conventions:
* pandas DataFrames become `List Row` / `List OutRow`; row order of a
  DataFrame is the list order.
* floating-point numbers (CatBoost raw predictions, the correction
  factor) are modelled as rationals `ℚ`; `np.floor` is `Int.floor` and
  `.astype(int)` applied after `np.floor` is the identity embedding of
  that integer.
* a CatBoost regressor is an opaque function from a feature vector to a
  rational, `List ℚ → ℚ`; `model.predict` maps it over the rows of the
  selected feature columns.
* the pandas column selection `df[features]` raises a `KeyError` when a
  needed column is absent; this is the `FeatureMismatch` failure of the
  spec, modelled with `Except`.
* `pd.date_range(start, periods = n, freq = "MS")` enumerates `n`
  consecutive month starts, rolling a start that is not the first day of
  a month forward to the next month start; months are embedded as linear
  indices `year * 12 + (month - 1) : Int`.
* Python truthiness of the optional filter arguments (`None` and the
  empty list both skip the filter) is embedded by using `List String`
  with `[]` for "no filter".
-/

namespace SalesForecast

/-- One row of a reference table (`df_h_ext` / `df_l_ext`): the three
categorical key columns, the calendar month (`YearMonth`, as a linear
month index), and the precomputed feature columns as an association
list from column name to value. -/
structure Row where
  Model : String
  FuelType : String
  Color : String
  YearMonth : Int
  feats : List (String × ℚ)
deriving DecidableEq

/-- One row of the result table returned by `run_forecast`, with the
columns selected on lines 124–134 of `forecast_engine.py`. -/
structure OutRow where
  ForecastMonth : String
  Model : String
  FuelType : String
  Color : String
  Predicted : Int
deriving DecidableEq

/-- The failure that can escape `run_forecast` at predict time: the
pandas `KeyError` raised by `fh[features]` when a feature column named
in `features` is absent, called `FeatureMismatch` in the spec. -/
inductive ForecastError where
  | featureMismatch (col : String)
deriving DecidableEq

/-- The artifact bundle returned by `load_artifacts`: two regressors,
the feature-name list, the discontinued-model set, and the two
reference tables. -/
structure Artifacts where
  model_h : List ℚ → ℚ
  model_l : List ℚ → ℚ
  features : List String
  discontinued_models : List String
  df_h_ext : List Row
  df_l_ext : List Row

/-- A calendar date, as produced by `pd.to_datetime(start_month)`:
year, month (1–12) and day of month (1–31). -/
structure Date where
  year : Int
  month : Nat
  day : Nat
deriving DecidableEq

/-- Linear month index of the calendar month containing a date. -/
def monthIndex (d : Date) : Int :=
  d.year * 12 + ((d.month : Int) - 1)

/-- The first month enumerated by
`pd.date_range(start_month, periods = n_months, freq = "MS")`: the
month of `start_month` itself when `start_month` is the first day of a
month, otherwise the following month (pandas rolls a non-anchored start
forward to the next month start). -/
def startIndex (d : Date) : Int :=
  if d.day = 1 then monthIndex d else monthIndex d + 1

/-- The month indices enumerated by
`pd.date_range(start_month, periods = n_months, freq = "MS")`
(lines 66–70 of `forecast_engine.py`): `n_months` consecutive months
from `startIndex`. -/
def monthRange (d : Date) (n_months : Nat) : List Int :=
  (List.range n_months).map (fun i : Nat => startIndex d + (i : Int))

/-- English month abbreviations, as produced by `strftime("%b")`. -/
def monthAbbrev (i : Nat) : String :=
  [ "Jan", "Feb", "Mar", "Apr", "May", "Jun",
    "Jul", "Aug", "Sep", "Oct", "Nov", "Dec" ].getD i ""

/-- `month.strftime("%b %Y")` (line 122 of `forecast_engine.py`) on a
linear month index. -/
def monthLabel (m : Int) : String :=
  monthAbbrev (m.emod 12).toNat ++ " " ++ toString (m.fdiv 12)

/-- Value of feature column `f` in row `r`, when present. -/
def lookupFeat (r : Row) (f : String) : Option ℚ :=
  r.feats.lookup f

/-- The pandas column selection `fh[features]` restricted to one row:
the row's values for the named feature columns, in the order of
`features`; fails with `FeatureMismatch` on the first absent column. -/
def selectFeatures (features : List String) (r : Row) :
    Except ForecastError (List ℚ) :=
  match features with
  | [] => .ok []
  | f :: fs =>
    match lookupFeat r f with
    | none => .error (.featureMismatch f)
    | some v =>
      match selectFeatures fs r with
      | .error e => .error e
      | .ok vs => .ok (v :: vs)

/-- The per-row transform on lines 89–92 / 95–98 of
`forecast_engine.py`: `np.floor(np.maximum(raw, 0) * correction_factor)`
converted to an integer. -/
def transformPred (raw : ℚ) (correction_factor : ℚ) : Int :=
  Int.floor (max raw 0 * correction_factor)

/-- The predict-and-transform step for one segment: for each selected
row, select its feature columns, run the regressor, and apply
`transformPred`; keeps each row paired with its predicted value.
Fails with `FeatureMismatch` if any selected row lacks a feature
column. -/
def predictRows (model : List ℚ → ℚ) (features : List String)
    (correction_factor : ℚ) :
    List Row → Except ForecastError (List (Row × Int))
  | [] => .ok []
  | r :: rs =>
    match selectFeatures features r with
    | .error e => .error e
    | .ok v =>
      match predictRows model features correction_factor rs with
      | .error e => .error e
      | .ok ps => .ok ((r, transformPred (model v) correction_factor) :: ps)

/-- The discontinued override on lines 105–108 of
`forecast_engine.py`: a row whose `Model` is in `discontinued_models`
gets `Predicted = 0`. -/
def applyDiscontinued (discontinued_models : List String)
    (p : Row × Int) : Row × Int :=
  if p.1.Model ∈ discontinued_models then (p.1, 0) else p

/-- One optional categorical filter (lines 113–120 of
`forecast_engine.py`): Python truthiness means a `None` or empty
selection leaves the rows untouched, a non-empty selection keeps
exactly the rows whose `f`-value is a member. -/
def applyFilter (sel : List String) (f : α → String)
    (rows : List α) : List α :=
  if sel = [] then rows else rows.filter (fun x => decide (f x ∈ sel))

/-- Column stamping of lines 122–134 of `forecast_engine.py`: attach
the month label and keep the output columns. -/
def stampMonth (label : String) (p : Row × Int) : OutRow :=
  { ForecastMonth := label, Model := p.1.Model, FuelType := p.1.FuelType,
    Color := p.1.Color, Predicted := p.2 }

/-- Lines 100–134 of `forecast_engine.py` for one month, after both
segments' predictions succeeded: concatenate high before low
(`pd.concat([fh, fl])`), apply the discontinued override, apply the
three optional filters, stamp the month label and keep the output
columns. -/
def assembleMonth (discontinued_models : List String)
    (selected_models selected_fuels selected_colors : List String)
    (m : Int) (ph pl : List (Row × Int)) : List OutRow :=
  let forecast := (ph ++ pl).map (applyDiscontinued discontinued_models)
  let forecast := applyFilter selected_models (fun p => p.1.Model) forecast
  let forecast := applyFilter selected_fuels (fun p => p.1.FuelType) forecast
  let forecast := applyFilter selected_colors (fun p => p.1.Color) forecast
  forecast.map (stampMonth (monthLabel m))

/-- The body of the `for month in forecast_months` loop of
`run_forecast` for a single month `m`: slice both reference tables to
month `m`, skip the month when both slices are empty (`continue`,
lines 82–83), otherwise predict both segments and assemble the month's
rows. -/
def processMonth (a : Artifacts) (correction_factor : ℚ)
    (selected_models selected_fuels selected_colors : List String)
    (m : Int) : Except ForecastError (List OutRow) :=
  let fh := a.df_h_ext.filter (fun r => decide (r.YearMonth = m))
  let fl := a.df_l_ext.filter (fun r => decide (r.YearMonth = m))
  if fh = [] ∧ fl = [] then .ok []
  else
    match predictRows a.model_h a.features correction_factor fh with
    | .error e => .error e
    | .ok ph =>
      match predictRows a.model_l a.features correction_factor fl with
      | .error e => .error e
      | .ok pl =>
        .ok (assembleMonth a.discontinued_models selected_models
          selected_fuels selected_colors m ph pl)

/-- The loop of `run_forecast` over the enumerated months, appending
each month's surviving rows to the running result (`all_forecasts` /
`pd.concat`, lines 72–139); an error in any month aborts the whole
call. -/
def forecastMonths (a : Artifacts) (correction_factor : ℚ)
    (selected_models selected_fuels selected_colors : List String) :
    List Int → Except ForecastError (List OutRow)
  | [] => .ok []
  | m :: ms =>
    match processMonth a correction_factor selected_models selected_fuels
        selected_colors m with
    | .error e => .error e
    | .ok rows =>
      match forecastMonths a correction_factor selected_models
          selected_fuels selected_colors ms with
      | .error e => .error e
      | .ok rest => .ok (rows ++ rest)

/-- `run_forecast(start_month, n_months, correction_factor,
selected_models, selected_fuels, selected_colors)` of
`forecast_engine.py`, with the loaded artifacts passed explicitly:
iterate `processMonth` over the `n_months` month starts beginning at
`start_month` and concatenate the results in month order. -/
def run_forecast (a : Artifacts) (start_month : Date) (n_months : Nat)
    (correction_factor : ℚ)
    (selected_models selected_fuels selected_colors : List String) :
    Except ForecastError (List OutRow) :=
  forecastMonths a correction_factor selected_models selected_fuels
    selected_colors (monthRange start_month n_months)

/-! ## Specification-side definitions

These definitions follow the wording of spec §4.2 (the per-step
description of the Forecast Assembler); they are compared with the
source-derived `run_forecast` above in the refinement theorem for the
ordering claim. -/

/-- The feature vector of a row in the order of `features`, with an
absent column defaulting to 0 (only ever used where presence of every
column is established). -/
def featVec (features : List String) (r : Row) : List ℚ :=
  features.map (fun f => (lookupFeat r f).getD 0)

/-- Row `r` has every column named in `features`. -/
def hasAllFeatures (features : List String) (r : Row) : Prop :=
  ∀ f ∈ features, (lookupFeat r f).isSome

instance (features : List String) (r : Row) :
    Decidable (hasAllFeatures features r) := by
  unfold hasAllFeatures; infer_instance

/-- One dimension of spec §4.2 step 7: a filter selection keeps value
`v` iff the selection is absent/empty or `v` is a member. -/
def passes (sel : List String) (v : String) : Prop :=
  sel = [] ∨ v ∈ sel

instance (sel : List String) (v : String) : Decidable (passes sel v) := by
  unfold passes; infer_instance

/-- Spec §4.2 step 7 for a reference row: the three optional filters
compose as a logical AND across dimensions. -/
def rowPasses (selected_models selected_fuels selected_colors : List String)
    (r : Row) : Prop :=
  passes selected_models r.Model ∧ passes selected_fuels r.FuelType ∧
    passes selected_colors r.Color

instance (sm sf sc : List String) (r : Row) :
    Decidable (rowPasses sm sf sc r) := by
  unfold rowPasses; infer_instance

/-- Spec §4.2 step 7 at the level of an output row. -/
def outPasses (selected_models selected_fuels selected_colors : List String)
    (o : OutRow) : Prop :=
  passes selected_models o.Model ∧ passes selected_fuels o.FuelType ∧
    passes selected_colors o.Color

instance (sm sf sc : List String) (o : OutRow) :
    Decidable (outPasses sm sf sc o) := by
  unfold outPasses; infer_instance

/-- Spec §4.2 steps 3–8 for a single reference row `r` of the segment
with regressor `model`, in month `m`: predict, transform, apply the
discontinued override, stamp the month label. -/
def specRow (model : List ℚ → ℚ) (features discontinued_models : List String)
    (correction_factor : ℚ) (m : Int) (r : Row) : OutRow :=
  { ForecastMonth := monthLabel m, Model := r.Model, FuelType := r.FuelType,
    Color := r.Color,
    Predicted := if r.Model ∈ discontinued_models then 0
      else transformPred (model (featVec features r)) correction_factor }

/-- Spec §4.2: the surviving output rows one segment contributes to
month `m`, in the row order of the underlying reference-table
selection. -/
def segmentSpec (model : List ℚ → ℚ) (features discontinued_models : List String)
    (correction_factor : ℚ) (sm sf sc : List String) (df : List Row)
    (m : Int) : List OutRow :=
  ((df.filter (fun r => decide (r.YearMonth = m))).filter
      (fun r => decide (rowPasses sm sf sc r))).map
    (specRow model features discontinued_models correction_factor m)

/-- Spec §4.2, final result: the concatenation over the horizon's
months, in month-ascending (iteration) order, of each month's
high-segment rows followed by its low-segment rows. -/
def forecastSpec (a : Artifacts) (start_month : Date) (n_months : Nat)
    (correction_factor : ℚ) (sm sf sc : List String) : List OutRow :=
  (monthRange start_month n_months).flatMap (fun m =>
    segmentSpec a.model_h a.features a.discontinued_models correction_factor
        sm sf sc a.df_h_ext m ++
      segmentSpec a.model_l a.features a.discontinued_models correction_factor
        sm sf sc a.df_l_ext m)

/-- The set of distinct `Model` values present in the reference data,
as computed by the dashboard for the filter widgets. -/
def allModels (a : Artifacts) : List String :=
  ((a.df_h_ext ++ a.df_l_ext).map Row.Model).dedup

/-- The set of distinct `FuelType` values present in the reference
data. -/
def allFuels (a : Artifacts) : List String :=
  ((a.df_h_ext ++ a.df_l_ext).map Row.FuelType).dedup

/-- The set of distinct `Color` values present in the reference data. -/
def allColors (a : Artifacts) : List String :=
  ((a.df_h_ext ++ a.df_l_ext).map Row.Color).dedup

/-! ## Concrete fixtures

A small artifact bundle used to instantiate the claims on concrete
inputs. The high-segment regressor returns `first feature + 3`, so the
single reference row (feature value 2) has raw model output 5. -/

/-- A concrete reference row for January 2026
(`24312 = 2026 * 12 + 0`). -/
def testRow : Row :=
  { Model := "X", FuelType := "Petrol", Color := "Red",
    YearMonth := 24312, feats := [("f1", 2)] }

/-- A concrete artifact bundle with one high-segment row and an empty
low table; model "Y" (absent from the data) is discontinued. -/
def testArtifacts : Artifacts :=
  { model_h := fun v => v.headD 0 + 3,
    model_l := fun _ => 7,
    features := ["f1"],
    discontinued_models := ["Y"],
    df_h_ext := [testRow],
    df_l_ext := [] }

/-- The output row `run_forecast` produces from `testArtifacts` with
correction factor 0.96: `floor(max(5, 0) * 0.96) = 4`. -/
def testOut96 : OutRow :=
  { ForecastMonth := "Jan 2026", Model := "X", FuelType := "Petrol",
    Color := "Red", Predicted := 4 }

/-- The output row `run_forecast` produces from `testArtifacts` with
correction factor −1: `floor(max(5, 0) * (-1)) = -5`. -/
def negOut : OutRow :=
  { ForecastMonth := "Jan 2026", Model := "X", FuelType := "Petrol",
    Color := "Red", Predicted := -5 }

/-- `testArtifacts` with the data's only model "X" discontinued. -/
def discArtifacts : Artifacts :=
  { testArtifacts with discontinued_models := ["X"] }

/-- The output row produced from `discArtifacts`: the discontinued
override forces `Predicted = 0`. -/
def discOut : OutRow :=
  { ForecastMonth := "Jan 2026", Model := "X", FuelType := "Petrol",
    Color := "Red", Predicted := 0 }

/-- `testArtifacts` with a feature list naming a column the reference
row lacks. -/
def mismatchArtifacts : Artifacts :=
  { testArtifacts with features := ["f2"] }

/-- An artifact bundle with empty reference tables. -/
def emptyArtifacts : Artifacts :=
  { model_h := fun _ => 0, model_l := fun _ => 0, features := [],
    discontinued_models := [], df_h_ext := [], df_l_ext := [] }

/-! ## Helper lemmas about the pipeline pieces -/

theorem selectFeatures_ok_of_hasAll {features : List String} {r : Row}
    (h : hasAllFeatures features r) :
    selectFeatures features r = .ok (featVec features r) := by
  induction features with
  | nil => rfl
  | cons f fs ih =>
    have hf : (lookupFeat r f).isSome := h f (List.mem_cons_self f fs)
    obtain ⟨v, hv⟩ := Option.isSome_iff_exists.mp hf
    have hfs : hasAllFeatures fs r := fun g hg => h g (List.mem_cons_of_mem f hg)
    simp only [selectFeatures, hv, ih hfs, featVec, List.map_cons, lookupFeat]
    simp [lookupFeat] at hv
    simp [featVec, hv]

theorem selectFeatures_ok_val {features : List String} {r : Row} {v : List ℚ}
    (h : selectFeatures features r = .ok v) : v = featVec features r := by
  induction features generalizing v with
  | nil =>
    simp only [selectFeatures] at h
    cases h
    rfl
  | cons f fs ih =>
    simp only [selectFeatures] at h
    cases hl : lookupFeat r f with
    | none => rw [hl] at h; cases h
    | some w =>
      rw [hl] at h
      cases hs : selectFeatures fs r with
      | error e => rw [hs] at h; cases h
      | ok vs =>
        rw [hs] at h
        cases h
        simp [featVec, hl, ih hs]

theorem selectFeatures_error_of_missing {features : List String} {r : Row}
    {f : String} (hf : f ∈ features) (hl : lookupFeat r f = none) :
    ∃ c, selectFeatures features r = .error (.featureMismatch c) := by
  induction features with
  | nil => cases hf
  | cons g gs ih =>
    rcases List.mem_cons.mp hf with hfg | hfs
    · subst hfg
      exact ⟨f, by simp [selectFeatures, hl]⟩
    · cases hg : lookupFeat r g with
      | none => exact ⟨g, by simp [selectFeatures, hg]⟩
      | some w =>
        obtain ⟨c, hc⟩ := ih hfs
        exact ⟨c, by simp [selectFeatures, hg, hc]⟩

theorem predictRows_ok_val {model : List ℚ → ℚ} {features : List String}
    {cf : ℚ} {rows : List Row} {l : List (Row × Int)}
    (h : predictRows model features cf rows = .ok l) :
    l = rows.map (fun r => (r, transformPred (model (featVec features r)) cf)) := by
  induction rows generalizing l with
  | nil =>
    simp only [predictRows] at h
    cases h
    rfl
  | cons r rs ih =>
    simp only [predictRows] at h
    cases hs : selectFeatures features r with
    | error e => rw [hs] at h; cases h
    | ok v =>
      rw [hs] at h
      cases hp : predictRows model features cf rs with
      | error e => rw [hp] at h; cases h
      | ok ps =>
        rw [hp] at h
        cases h
        simp [ih hp, selectFeatures_ok_val hs]

theorem predictRows_ok_select {model : List ℚ → ℚ} {features : List String}
    {cf : ℚ} {rows : List Row} {l : List (Row × Int)}
    (h : predictRows model features cf rows = .ok l) :
    ∀ r ∈ rows, selectFeatures features r = .ok (featVec features r) := by
  induction rows generalizing l with
  | nil => intro r hr; cases hr
  | cons r rs ih =>
    intro s hs
    simp only [predictRows] at h
    cases hsel : selectFeatures features r with
    | error e => rw [hsel] at h; cases h
    | ok v =>
      rw [hsel] at h
      cases hp : predictRows model features cf rs with
      | error e => rw [hp] at h; cases h
      | ok ps =>
        rcases List.mem_cons.mp hs with hsr | hsrs
        · subst hsr
          rw [hsel, selectFeatures_ok_val hsel]
        · exact ih hp s hsrs

theorem predictRows_ok_of_hasAll {model : List ℚ → ℚ} {features : List String}
    {cf : ℚ} {rows : List Row}
    (h : ∀ r ∈ rows, hasAllFeatures features r) :
    predictRows model features cf rows =
      .ok (rows.map (fun r => (r, transformPred (model (featVec features r)) cf))) := by
  induction rows with
  | nil => rfl
  | cons r rs ih =>
    have hr := selectFeatures_ok_of_hasAll (h r (List.mem_cons_self r rs))
    have hrs := ih (fun s hs => h s (List.mem_cons_of_mem r hs))
    simp [predictRows, hr, hrs]

theorem predictRows_error_of_missing {model : List ℚ → ℚ}
    {features : List String} {cf : ℚ} {rows : List Row} {r : Row} {f : String}
    (hr : r ∈ rows) (hf : f ∈ features) (hl : lookupFeat r f = none) :
    ∃ c, predictRows model features cf rows = .error (.featureMismatch c) := by
  induction rows with
  | nil => cases hr
  | cons s ss ih =>
    rcases List.mem_cons.mp hr with hrs | hrss
    · subst hrs
      obtain ⟨c, hc⟩ := selectFeatures_error_of_missing hf hl
      exact ⟨c, by simp [predictRows, hc]⟩
    · cases hsel : selectFeatures features s with
      | error e =>
        cases e with
        | featureMismatch c => exact ⟨c, by simp [predictRows, hsel]⟩
      | ok v =>
        obtain ⟨c, hc⟩ := ih hrss
        exact ⟨c, by simp [predictRows, hsel, hc]⟩

theorem applyFilter_eq_filter (sel : List String) (f : α → String)
    (rows : List α) :
    applyFilter sel f rows =
      rows.filter (fun x => decide (passes sel (f x))) := by
  unfold applyFilter
  split
  · next hsel =>
    subst hsel
    simp [passes]
  · next hsel =>
    apply List.filter_congr
    intro x _
    simp [passes, hsel]

theorem applyFilter_sub {sel : List String} {f : α → String} {rows : List α}
    {x : α} (h : x ∈ applyFilter sel f rows) : x ∈ rows := by
  rw [applyFilter_eq_filter] at h
  exact List.mem_of_mem_filter h

theorem applyFilter_all {sel : List String} {f : α → String} {rows : List α}
    (h : ∀ x ∈ rows, f x ∈ sel) : applyFilter sel f rows = rows := by
  rw [applyFilter_eq_filter]
  apply List.filter_eq_self.mpr
  intro x hx
  simp [passes, h x hx]

theorem applyDiscontinued_fst (disc : List String) (p : Row × Int) :
    (applyDiscontinued disc p).1 = p.1 := by
  unfold applyDiscontinued
  split <;> rfl

theorem applyFilter_nil (f : α → String) (rows : List α) :
    applyFilter [] f rows = rows := rfl

/-- The three sequential filters of lines 113–120 collapse to a single
filter by the conjunction `rowPasses` of the per-dimension membership
tests. -/
theorem assembleMonth_eq_filter (disc sm sf sc : List String) (m : Int)
    (ph pl : List (Row × Int)) :
    assembleMonth disc sm sf sc m ph pl =
      (((ph ++ pl).map (applyDiscontinued disc)).filter
          (fun q => decide (rowPasses sm sf sc q.1))).map
        (stampMonth (monthLabel m)) := by
  simp only [assembleMonth]
  rw [applyFilter_eq_filter, applyFilter_eq_filter, applyFilter_eq_filter,
    List.filter_filter, List.filter_filter]
  apply congrArg
  apply List.filter_congr
  intro q _
  by_cases h1 : passes sm q.1.Model <;>
    by_cases h2 : passes sf q.1.FuelType <;>
      by_cases h3 : passes sc q.1.Color <;>
        simp [rowPasses, h1, h2, h3]

theorem assembleMonth_filter_decomp (disc sm sf sc : List String) (m : Int)
    (ph pl : List (Row × Int)) :
    assembleMonth disc sm sf sc m ph pl =
      (assembleMonth disc [] [] [] m ph pl).filter
        (fun o => decide (outPasses sm sf sc o)) := by
  rw [assembleMonth_eq_filter disc sm sf sc, assembleMonth_eq_filter disc [] [] []]
  have htriv : ∀ q : Row × Int, decide (rowPasses [] [] [] q.1) = true := by
    intro q
    simp [rowPasses, passes]
  rw [List.filter_congr (fun q _ => htriv q), List.filter_true,
    List.filter_map (stampMonth (monthLabel m))]
  apply congrArg
  apply List.filter_congr
  intro q _
  by_cases h1 : passes sm q.1.Model <;>
    by_cases h2 : passes sf q.1.FuelType <;>
      by_cases h3 : passes sc q.1.Color <;>
        simp [rowPasses, outPasses, stampMonth, Function.comp, h1, h2, h3]

/-- One segment's contribution to a month, on predicted pairs coming
from the rows `rows`, equals the specification-side `segmentSpec` form
of that contribution (filter the selection, then map the per-row spec
transform). -/
theorem assembleSegment_eq_spec (model : List ℚ → ℚ)
    (features disc sm sf sc : List String) (cf : ℚ) (m : Int)
    (rows : List Row) :
    (((rows.map (fun r =>
          (r, transformPred (model (featVec features r)) cf))).map
        (applyDiscontinued disc)).filter
          (fun q => decide (rowPasses sm sf sc q.1))).map
      (stampMonth (monthLabel m)) =
      (rows.filter (fun r => decide (rowPasses sm sf sc r))).map
        (specRow model features disc cf m) := by
  rw [List.map_map, List.filter_map, List.map_map]
  have hpred : ∀ r : Row,
      ((fun q : Row × Int => decide (rowPasses sm sf sc q.1)) ∘
        (applyDiscontinued disc ∘ fun r =>
          (r, transformPred (model (featVec features r)) cf))) r =
        decide (rowPasses sm sf sc r) := by
    intro r
    simp [Function.comp, applyDiscontinued]
    split <;> rfl
  rw [List.filter_congr (fun r _ => hpred r)]
  apply List.map_congr_left
  intro r _
  simp only [Function.comp, applyDiscontinued, specRow, stampMonth]
  split
  · next h => simp [h]
  · next h => simp [h]

/-! ## Month-level and loop-level characterizations -/

theorem processMonth_eq_spec (a : Artifacts) (cf : ℚ) (sm sf sc : List String)
    (m : Int)
    (hh : ∀ r ∈ a.df_h_ext, hasAllFeatures a.features r)
    (hl : ∀ r ∈ a.df_l_ext, hasAllFeatures a.features r) :
    processMonth a cf sm sf sc m =
      .ok (segmentSpec a.model_h a.features a.discontinued_models cf sm sf sc
          a.df_h_ext m ++
        segmentSpec a.model_l a.features a.discontinued_models cf sm sf sc
          a.df_l_ext m) := by
  have hfh : ∀ r ∈ a.df_h_ext.filter (fun r => decide (r.YearMonth = m)),
      hasAllFeatures a.features r :=
    fun r hr => hh r (List.mem_of_mem_filter hr)
  have hfl : ∀ r ∈ a.df_l_ext.filter (fun r => decide (r.YearMonth = m)),
      hasAllFeatures a.features r :=
    fun r hr => hl r (List.mem_of_mem_filter hr)
  simp only [processMonth, predictRows_ok_of_hasAll hfh,
    predictRows_ok_of_hasAll hfl]
  split
  · next hemp =>
    obtain ⟨h1, h2⟩ := hemp
    simp [segmentSpec, h1, h2]
  · congr 1
    rw [assembleMonth_eq_filter, List.map_append, List.filter_append,
      List.map_append, segmentSpec, segmentSpec,
      assembleSegment_eq_spec, assembleSegment_eq_spec]

theorem forecastMonths_eq_spec (a : Artifacts) (cf : ℚ) (sm sf sc : List String)
    (ms : List Int)
    (hh : ∀ r ∈ a.df_h_ext, hasAllFeatures a.features r)
    (hl : ∀ r ∈ a.df_l_ext, hasAllFeatures a.features r) :
    forecastMonths a cf sm sf sc ms =
      .ok (ms.flatMap (fun m =>
        segmentSpec a.model_h a.features a.discontinued_models cf sm sf sc
            a.df_h_ext m ++
          segmentSpec a.model_l a.features a.discontinued_models cf sm sf sc
            a.df_l_ext m)) := by
  induction ms with
  | nil => rfl
  | cons m ms ih =>
    simp only [forecastMonths, processMonth_eq_spec a cf sm sf sc m hh hl, ih,
      List.flatMap_cons]

theorem processMonth_filter_decomp (a : Artifacts) (cf : ℚ)
    (sm sf sc : List String) (m : Int) :
    processMonth a cf sm sf sc m =
      Except.map (List.filter (fun o => decide (outPasses sm sf sc o)))
        (processMonth a cf [] [] [] m) := by
  simp only [processMonth]
  split
  · rfl
  · cases hph : predictRows a.model_h a.features cf
        (a.df_h_ext.filter (fun r => decide (r.YearMonth = m))) with
    | error e => rfl
    | ok ph =>
      cases hpl : predictRows a.model_l a.features cf
          (a.df_l_ext.filter (fun r => decide (r.YearMonth = m))) with
      | error e => rfl
      | ok pl =>
        simp only [Except.map]
        exact congrArg Except.ok (assembleMonth_filter_decomp _ sm sf sc m ph pl)

theorem forecastMonths_filter_decomp (a : Artifacts) (cf : ℚ)
    (sm sf sc : List String) (ms : List Int) :
    forecastMonths a cf sm sf sc ms =
      Except.map (List.filter (fun o => decide (outPasses sm sf sc o)))
        (forecastMonths a cf [] [] [] ms) := by
  induction ms with
  | nil => rfl
  | cons m ms ih =>
    simp only [forecastMonths, ih, processMonth_filter_decomp a cf sm sf sc m]
    cases processMonth a cf [] [] [] m with
    | error e => rfl
    | ok rows =>
      cases forecastMonths a cf [] [] [] ms with
      | error e => rfl
      | ok rest => simp [Except.map, List.filter_append]

theorem mem_segment_shape {model : List ℚ → ℚ} {features : List String}
    {cf : ℚ} {df : List Row} {m : Int} {pr : List (Row × Int)}
    (hpr : predictRows model features cf
      (df.filter (fun r => decide (r.YearMonth = m))) = .ok pr)
    {p : Row × Int} (hp : p ∈ pr) :
    ∃ r ∈ df, r.YearMonth = m ∧
      selectFeatures features r = .ok (featVec features r) ∧
      p = (r, transformPred (model (featVec features r)) cf) := by
  rw [predictRows_ok_val hpr] at hp
  obtain ⟨r, hr, hrp⟩ := List.mem_map.mp hp
  have hsel := predictRows_ok_select hpr r hr
  have hmem := List.mem_filter.mp hr
  refine ⟨r, hmem.1, by simpa using hmem.2, hsel, hrp.symm⟩

theorem processMonth_ok_shape {a : Artifacts} {cf : ℚ} {sm sf sc : List String}
    {m : Int} {out : List OutRow}
    (h : processMonth a cf sm sf sc m = .ok out) :
    ∀ o ∈ out, ∃ model df,
      ((model = a.model_h ∧ df = a.df_h_ext) ∨
        (model = a.model_l ∧ df = a.df_l_ext)) ∧
      ∃ r ∈ df, r.YearMonth = m ∧
        selectFeatures a.features r = .ok (featVec a.features r) ∧
        o.ForecastMonth = monthLabel m ∧ o.Model = r.Model ∧
        o.FuelType = r.FuelType ∧ o.Color = r.Color ∧
        o.Predicted = (if r.Model ∈ a.discontinued_models then 0
          else transformPred (model (featVec a.features r)) cf) := by
  intro o ho
  simp only [processMonth] at h
  split at h
  · cases h
    cases ho
  · cases hph : predictRows a.model_h a.features cf
        (a.df_h_ext.filter (fun r => decide (r.YearMonth = m))) with
    | error e => rw [hph] at h; cases h
    | ok ph =>
      rw [hph] at h
      cases hpl : predictRows a.model_l a.features cf
          (a.df_l_ext.filter (fun r => decide (r.YearMonth = m))) with
      | error e => rw [hpl] at h; cases h
      | ok pl =>
        rw [hpl] at h
        cases h
        rw [assembleMonth_eq_filter] at ho
        obtain ⟨q, hq, hqo⟩ := List.mem_map.mp ho
        have hq2 : q ∈ (ph ++ pl).map (applyDiscontinued a.discontinued_models) :=
          List.mem_of_mem_filter hq
        obtain ⟨p, hp, hpq⟩ := List.mem_map.mp hq2
        rcases List.mem_append.mp hp with hph2 | hpl2
        · obtain ⟨r, hr, hrm, hsel, hpr⟩ := mem_segment_shape hph hph2
          refine ⟨a.model_h, a.df_h_ext, Or.inl ⟨rfl, rfl⟩, r, hr, hrm, hsel,
            ?_, ?_, ?_, ?_, ?_⟩ <;>
            · subst hqo hpq hpr
              by_cases hd : r.Model ∈ a.discontinued_models <;>
                simp [stampMonth, applyDiscontinued, hd]
        · obtain ⟨r, hr, hrm, hsel, hpr⟩ := mem_segment_shape hpl hpl2
          refine ⟨a.model_l, a.df_l_ext, Or.inr ⟨rfl, rfl⟩, r, hr, hrm, hsel,
            ?_, ?_, ?_, ?_, ?_⟩ <;>
            · subst hqo hpq hpr
              by_cases hd : r.Model ∈ a.discontinued_models <;>
                simp [stampMonth, applyDiscontinued, hd]

theorem forecastMonths_ok_mem {a : Artifacts} {cf : ℚ} {sm sf sc : List String}
    {ms : List Int} {res : List OutRow}
    (h : forecastMonths a cf sm sf sc ms = .ok res) {o : OutRow}
    (ho : o ∈ res) :
    ∃ m ∈ ms, ∃ out, processMonth a cf sm sf sc m = .ok out ∧ o ∈ out := by
  induction ms generalizing res with
  | nil =>
    simp only [forecastMonths] at h
    cases h
    cases ho
  | cons m ms ih =>
    simp only [forecastMonths] at h
    cases hpm : processMonth a cf sm sf sc m with
    | error e => rw [hpm] at h; cases h
    | ok rows =>
      rw [hpm] at h
      cases hfm : forecastMonths a cf sm sf sc ms with
      | error e => rw [hfm] at h; cases h
      | ok rest =>
        rw [hfm] at h
        cases h
        rcases List.mem_append.mp ho with h1 | h2
        · exact ⟨m, List.mem_cons_self m ms, rows, hpm, h1⟩
        · obtain ⟨m2, hm2, out, hout, ho2⟩ := ih hfm h2
          exact ⟨m2, List.mem_cons_of_mem m hm2, out, hout, ho2⟩

/-! ## Lemmas for the all-values filter claim -/

theorem assemble_pairs_mem {a : Artifacts} {cf : ℚ} {m : Int}
    {ph pl : List (Row × Int)}
    (hph : predictRows a.model_h a.features cf
      (a.df_h_ext.filter (fun r => decide (r.YearMonth = m))) = .ok ph)
    (hpl : predictRows a.model_l a.features cf
      (a.df_l_ext.filter (fun r => decide (r.YearMonth = m))) = .ok pl) :
    ∀ p ∈ (ph ++ pl).map (applyDiscontinued a.discontinued_models),
      p.1 ∈ a.df_h_ext ++ a.df_l_ext := by
  intro p hp
  obtain ⟨q, hq, hqp⟩ := List.mem_map.mp hp
  subst hqp
  rw [applyDiscontinued_fst]
  rcases List.mem_append.mp hq with h1 | h2
  · rw [predictRows_ok_val hph] at h1
    obtain ⟨r, hr, hrq⟩ := List.mem_map.mp h1
    subst hrq
    exact List.mem_append_left _ (List.mem_of_mem_filter hr)
  · rw [predictRows_ok_val hpl] at h2
    obtain ⟨r, hr, hrq⟩ := List.mem_map.mp h2
    subst hrq
    exact List.mem_append_right _ (List.mem_of_mem_filter hr)

theorem assembleMonth_all_models {disc sel sf sc : List String} {m : Int}
    {ph pl : List (Row × Int)}
    (hmem : ∀ p ∈ (ph ++ pl).map (applyDiscontinued disc), p.1.Model ∈ sel) :
    assembleMonth disc sel sf sc m ph pl = assembleMonth disc [] sf sc m ph pl := by
  simp only [assembleMonth, applyFilter_nil]
  rw [applyFilter_all hmem]

theorem assembleMonth_all_fuels {disc sm sel sc : List String} {m : Int}
    {ph pl : List (Row × Int)}
    (hmem : ∀ p ∈ (ph ++ pl).map (applyDiscontinued disc), p.1.FuelType ∈ sel) :
    assembleMonth disc sm sel sc m ph pl = assembleMonth disc sm [] sc m ph pl := by
  simp only [assembleMonth, applyFilter_nil]
  rw [applyFilter_all (fun p hp => hmem p (applyFilter_sub hp))]

theorem assembleMonth_all_colors {disc sm sf sel : List String} {m : Int}
    {ph pl : List (Row × Int)}
    (hmem : ∀ p ∈ (ph ++ pl).map (applyDiscontinued disc), p.1.Color ∈ sel) :
    assembleMonth disc sm sf sel m ph pl = assembleMonth disc sm sf [] m ph pl := by
  simp only [assembleMonth, applyFilter_nil]
  rw [applyFilter_all (fun p hp => hmem p (applyFilter_sub (applyFilter_sub hp)))]

theorem processMonth_assemble_congr {a : Artifacts} {cf : ℚ} {m : Int}
    {sm1 sf1 sc1 sm2 sf2 sc2 : List String}
    (h : ∀ ph pl,
      predictRows a.model_h a.features cf
        (a.df_h_ext.filter (fun r => decide (r.YearMonth = m))) = .ok ph →
      predictRows a.model_l a.features cf
        (a.df_l_ext.filter (fun r => decide (r.YearMonth = m))) = .ok pl →
      assembleMonth a.discontinued_models sm1 sf1 sc1 m ph pl =
        assembleMonth a.discontinued_models sm2 sf2 sc2 m ph pl) :
    processMonth a cf sm1 sf1 sc1 m = processMonth a cf sm2 sf2 sc2 m := by
  simp only [processMonth]
  split
  · rfl
  · cases hph : predictRows a.model_h a.features cf
        (a.df_h_ext.filter (fun r => decide (r.YearMonth = m))) with
    | error e => rfl
    | ok ph =>
      cases hpl : predictRows a.model_l a.features cf
          (a.df_l_ext.filter (fun r => decide (r.YearMonth = m))) with
      | error e => rfl
      | ok pl => exact congrArg Except.ok (h ph pl hph hpl)

theorem forecastMonths_congr {a : Artifacts} {cf : ℚ}
    {sm1 sf1 sc1 sm2 sf2 sc2 : List String}
    (h : ∀ m, processMonth a cf sm1 sf1 sc1 m = processMonth a cf sm2 sf2 sc2 m)
    (ms : List Int) :
    forecastMonths a cf sm1 sf1 sc1 ms = forecastMonths a cf sm2 sf2 sc2 ms := by
  induction ms with
  | nil => rfl
  | cons m ms ih => simp only [forecastMonths, h m, ih]

/-! ## Error-propagation lemmas -/

theorem processMonth_error_of_missing {a : Artifacts} {cf : ℚ}
    {sm sf sc : List String} {m : Int} {r : Row} {f : String}
    (hr : r ∈ a.df_h_ext ++ a.df_l_ext) (hm : r.YearMonth = m)
    (hf : f ∈ a.features) (hl : lookupFeat r f = none) :
    ∃ c, processMonth a cf sm sf sc m = .error (.featureMismatch c) := by
  simp only [processMonth]
  rcases List.mem_append.mp hr with hrh | hrl
  · have hrfh : r ∈ a.df_h_ext.filter (fun r => decide (r.YearMonth = m)) :=
      List.mem_filter.mpr ⟨hrh, by simp [hm]⟩
    have hne : a.df_h_ext.filter (fun r => decide (r.YearMonth = m)) ≠ [] :=
      List.ne_nil_of_mem hrfh
    obtain ⟨c, hc⟩ :=
      @predictRows_error_of_missing a.model_h a.features cf _ _ _ hrfh hf hl
    refine ⟨c, ?_⟩
    rw [if_neg (fun hemp => hne hemp.1), hc]
  · have hrfl : r ∈ a.df_l_ext.filter (fun r => decide (r.YearMonth = m)) :=
      List.mem_filter.mpr ⟨hrl, by simp [hm]⟩
    have hne : a.df_l_ext.filter (fun r => decide (r.YearMonth = m)) ≠ [] :=
      List.ne_nil_of_mem hrfl
    obtain ⟨c, hc⟩ :=
      @predictRows_error_of_missing a.model_l a.features cf _ _ _ hrfl hf hl
    cases hph : predictRows a.model_h a.features cf
        (a.df_h_ext.filter (fun r => decide (r.YearMonth = m))) with
    | error e =>
      cases e with
      | featureMismatch c2 =>
        refine ⟨c2, ?_⟩
        rw [if_neg (fun hemp => hne hemp.2)]
    | ok ph =>
      refine ⟨c, ?_⟩
      rw [if_neg (fun hemp => hne hemp.2), hc]

theorem forecastMonths_error_of_mem {a : Artifacts} {cf : ℚ}
    {sm sf sc : List String} {ms : List Int} {m : Int}
    (hm : m ∈ ms)
    (hpm : ∃ c, processMonth a cf sm sf sc m = .error (.featureMismatch c)) :
    ∃ c, forecastMonths a cf sm sf sc ms = .error (.featureMismatch c) := by
  induction ms with
  | nil => cases hm
  | cons m0 ms ih =>
    cases hp0 : processMonth a cf sm sf sc m0 with
    | error e =>
      cases e with
      | featureMismatch c => exact ⟨c, by simp only [forecastMonths, hp0]⟩
    | ok rows =>
      rcases List.mem_cons.mp hm with hm0 | hms
      · subst hm0
        obtain ⟨c, hc⟩ := hpm
        rw [hp0] at hc
        cases hc
      · obtain ⟨c, hc⟩ := ih hms
        refine ⟨c, ?_⟩
        simp only [forecastMonths, hp0, hc]

/-! ## Evaluation of the fixtures -/

theorem testRun96 :
    run_forecast testArtifacts ⟨2026, 1, 1⟩ 1 (96/100) [] [] [] =
      .ok [testOut96] := by
  simp [run_forecast, forecastMonths, processMonth, assembleMonth, monthRange,
    startIndex, monthIndex, monthLabel, monthAbbrev, predictRows, selectFeatures,
    lookupFeat, testArtifacts, testRow, transformPred, applyDiscontinued,
    applyFilter, stampMonth, testOut96]
  norm_num
  rfl

theorem negRun :
    run_forecast testArtifacts ⟨2026, 1, 1⟩ 1 (-1) [] [] [] =
      .ok [negOut] := by
  simp [run_forecast, forecastMonths, processMonth, assembleMonth, monthRange,
    startIndex, monthIndex, monthLabel, monthAbbrev, predictRows, selectFeatures,
    lookupFeat, testArtifacts, testRow, transformPred, applyDiscontinued,
    applyFilter, stampMonth, negOut]
  norm_num
  rfl

theorem discRun :
    run_forecast discArtifacts ⟨2026, 1, 1⟩ 1 (96/100) [] [] [] =
      .ok [discOut] := by
  simp [run_forecast, forecastMonths, processMonth, assembleMonth, monthRange,
    startIndex, monthIndex, monthLabel, monthAbbrev, predictRows, selectFeatures,
    lookupFeat, discArtifacts, testArtifacts, testRow, transformPred,
    applyDiscontinued, applyFilter, stampMonth, discOut]
  norm_num
  rfl

/-! ## Month-skip lemmas -/

theorem processMonth_skip {a : Artifacts} {cf : ℚ} {sm sf sc : List String}
    {m : Int}
    (h1 : a.df_h_ext.filter (fun r => decide (r.YearMonth = m)) = [])
    (h2 : a.df_l_ext.filter (fun r => decide (r.YearMonth = m)) = []) :
    processMonth a cf sm sf sc m = .ok [] := by
  simp only [processMonth]
  rw [if_pos ⟨h1, h2⟩]

theorem forecastMonths_skip {a : Artifacts} {cf : ℚ} {sm sf sc : List String}
    {ms : List Int}
    (h : ∀ m ∈ ms,
      a.df_h_ext.filter (fun r => decide (r.YearMonth = m)) = [] ∧
        a.df_l_ext.filter (fun r => decide (r.YearMonth = m)) = []) :
    forecastMonths a cf sm sf sc ms = .ok [] := by
  induction ms with
  | nil => rfl
  | cons m ms ih =>
    have hm := h m (List.mem_cons_self m ms)
    have hrest := ih (fun m2 hm2 => h m2 (List.mem_cons_of_mem m hm2))
    simp only [forecastMonths, processMonth_skip hm.1 hm.2, hrest,
      List.nil_append]

/-! ## The claims -/

/-- C1: every output row whose Model is not in the discontinued set has
`Predicted = floor(max(raw, 0) * correctionFactor)` as an integer,
where `raw` is the row's segment regressor applied to the row's feature
columns — clamping to zero happens before the multiplication and the
floor after it (this is exactly `transformPred`); in particular for
correctionFactor 0.96 and raw prediction 5.0 the result is 4. -/
theorem C1_predicted_transform :
    (∀ (a : Artifacts) (d : Date) (n : Nat) (cf : ℚ) (sm sf sc : List String)
      (res : List OutRow) (o : OutRow),
      run_forecast a d n cf sm sf sc = .ok res → o ∈ res →
      o.Model ∉ a.discontinued_models →
      ∃ model df,
        ((model = a.model_h ∧ df = a.df_h_ext) ∨
          (model = a.model_l ∧ df = a.df_l_ext)) ∧
        ∃ r ∈ df, r.Model = o.Model ∧
          selectFeatures a.features r = .ok (featVec a.features r) ∧
          o.Predicted = transformPred (model (featVec a.features r)) cf) ∧
    transformPred 5 (96/100) = 4 := by
  constructor
  · intro a d n cf sm sf sc res o h ho hnd
    obtain ⟨m, _, out, hout, ho2⟩ := forecastMonths_ok_mem h ho
    obtain ⟨model, df, hseg, r, hr, _, hsel, _, hMod, _, _, hPred⟩ :=
      processMonth_ok_shape hout o ho2
    refine ⟨model, df, hseg, r, hr, hMod.symm, hsel, ?_⟩
    rw [hPred, if_neg (fun hd => hnd (hMod.symm ▸ hd))]
  · norm_num [transformPred]

/-- Witness for C1 on the concrete fixture: the single output row of
`testRun96` is not discontinued and its `Predicted` is the transform of
the raw high-segment output. -/
theorem C1_witness :
    (∃ model df,
      ((model = testArtifacts.model_h ∧ df = testArtifacts.df_h_ext) ∨
        (model = testArtifacts.model_l ∧ df = testArtifacts.df_l_ext)) ∧
      ∃ r ∈ df, r.Model = testOut96.Model ∧
        selectFeatures testArtifacts.features r =
          .ok (featVec testArtifacts.features r) ∧
        testOut96.Predicted =
          transformPred (model (featVec testArtifacts.features r)) (96/100)) ∧
    transformPred 5 (96/100) = 4 :=
  ⟨C1_predicted_transform.1 testArtifacts ⟨2026, 1, 1⟩ 1 (96/100) [] [] []
      [testOut96] testOut96 testRun96 (List.mem_singleton.mpr rfl) (by decide),
    C1_predicted_transform.2⟩

/-- C2: every output row whose Model is in the discontinued set has
`Predicted = 0`, for every correction factor, regressor pair, and
filter configuration — the override is unconditional and surviving the
filters never changes it. -/
theorem C2_discontinued_zero (a : Artifacts) (d : Date) (n : Nat) (cf : ℚ)
    (sm sf sc : List String) (res : List OutRow) (o : OutRow)
    (h : run_forecast a d n cf sm sf sc = .ok res) (ho : o ∈ res)
    (hd : o.Model ∈ a.discontinued_models) : o.Predicted = 0 := by
  obtain ⟨m, _, out, hout, ho2⟩ := forecastMonths_ok_mem h ho
  obtain ⟨model, df, _, r, _, _, _, _, hMod, _, _, hPred⟩ :=
    processMonth_ok_shape hout o ho2
  rw [hPred, if_pos (hMod ▸ hd)]

/-- Witness for C2: with model "X" discontinued, the surviving output
row of `discRun` has `Predicted = 0`. -/
theorem C2_witness : discOut.Predicted = 0 :=
  C2_discontinued_zero discArtifacts ⟨2026, 1, 1⟩ 1 (96/100) [] [] []
    [discOut] discOut discRun (List.mem_singleton.mpr rfl) (by decide)

/-- C3 (counterexample): the claim says `Predicted ≥ 0` for any real
correctionFactor, but with correctionFactor −1 and raw output 5 the
code produces `Predicted = -5 < 0`. -/
theorem C3_counterexample :
    run_forecast testArtifacts ⟨2026, 1, 1⟩ 1 (-1) [] [] [] = .ok [negOut] ∧
      ¬ 0 ≤ negOut.Predicted :=
  ⟨negRun, by decide⟩

/-- C3 (amended): for every non-negative correctionFactor, every row of
the returned result satisfies `Predicted ≥ 0` (`Predicted` is an
integer by construction, of type `Int`). -/
theorem C3_predicted_nonneg_amended (a : Artifacts) (d : Date) (n : Nat)
    (cf : ℚ) (sm sf sc : List String) (res : List OutRow) (o : OutRow)
    (hcf : 0 ≤ cf) (h : run_forecast a d n cf sm sf sc = .ok res)
    (ho : o ∈ res) : 0 ≤ o.Predicted := by
  obtain ⟨m, _, out, hout, ho2⟩ := forecastMonths_ok_mem h ho
  obtain ⟨model, df, _, r, _, _, _, _, _, _, _, hPred⟩ :=
    processMonth_ok_shape hout o ho2
  rw [hPred]
  split
  · exact le_refl 0
  · exact Int.floor_nonneg.mpr (mul_nonneg (le_max_right _ _) hcf)

/-- Witness for the amended C3 on the concrete fixture. -/
theorem C3_witness : 0 ≤ testOut96.Predicted :=
  C3_predicted_nonneg_amended testArtifacts ⟨2026, 1, 1⟩ 1 (96/100) [] [] []
    [testOut96] testOut96 (by norm_num) testRun96 (List.mem_singleton.mpr rfl)

/-- C4: a month whose high-table and low-table selections are both
empty contributes no rows at all (not even zero rows), and when that
holds for every month of the horizon, `run_forecast` returns the empty
result rather than raising an error. -/
theorem C4_month_skip :
    (∀ (a : Artifacts) (cf : ℚ) (sm sf sc : List String) (m : Int),
      a.df_h_ext.filter (fun r => decide (r.YearMonth = m)) = [] →
      a.df_l_ext.filter (fun r => decide (r.YearMonth = m)) = [] →
      processMonth a cf sm sf sc m = .ok []) ∧
    (∀ (a : Artifacts) (d : Date) (n : Nat) (cf : ℚ) (sm sf sc : List String),
      (∀ m ∈ monthRange d n,
        a.df_h_ext.filter (fun r => decide (r.YearMonth = m)) = [] ∧
          a.df_l_ext.filter (fun r => decide (r.YearMonth = m)) = []) →
      run_forecast a d n cf sm sf sc = .ok []) :=
  ⟨fun _ _ _ _ _ _ h1 h2 => processMonth_skip h1 h2,
    fun _ _ _ _ _ _ _ h => forecastMonths_skip h⟩

/-- Witness for C4: with empty reference tables every month is skipped
and the result is the empty table, with no error. -/
theorem C4_witness :
    run_forecast emptyArtifacts ⟨2026, 1, 1⟩ 3 1 [] [] [] = .ok [] :=
  C4_month_skip.2 emptyArtifacts ⟨2026, 1, 1⟩ 3 1 [] [] []
    (fun _ _ => ⟨rfl, rfl⟩)

/-- C5: the result with filters equals the unfiltered result restricted
to the rows passing every provided filter: a provided non-empty filter
keeps exactly the rows whose value for that dimension is a member, an
absent/empty filter is no restriction, and the three dimensions compose
as a logical AND (`outPasses`). -/
theorem C5_filter_semantics (a : Artifacts) (d : Date) (n : Nat) (cf : ℚ)
    (sm sf sc : List String) :
    run_forecast a d n cf sm sf sc =
      Except.map (List.filter (fun o => decide (outPasses sm sf sc o)))
        (run_forecast a d n cf [] [] []) :=
  forecastMonths_filter_decomp a cf sm sf sc (monthRange d n)

/-- C6: the result table is the concatenation, over the horizon's
months in iteration order, of each month's surviving rows, with all
high-segment rows before all low-segment rows, each group in the row
order of its reference-table selection — i.e. `run_forecast` returns
exactly the specification-side `forecastSpec` table. -/
theorem C6_result_order (a : Artifacts) (d : Date) (n : Nat) (cf : ℚ)
    (sm sf sc : List String)
    (hh : ∀ r ∈ a.df_h_ext, hasAllFeatures a.features r)
    (hl : ∀ r ∈ a.df_l_ext, hasAllFeatures a.features r) :
    run_forecast a d n cf sm sf sc = .ok (forecastSpec a d n cf sm sf sc) :=
  forecastMonths_eq_spec a cf sm sf sc (monthRange d n) hh hl

/-- Witness for C6 on the concrete fixture. -/
theorem C6_witness :
    run_forecast testArtifacts ⟨2026, 1, 1⟩ 1 (96/100) [] [] [] =
      .ok (forecastSpec testArtifacts ⟨2026, 1, 1⟩ 1 (96/100) [] [] []) :=
  C6_result_order testArtifacts ⟨2026, 1, 1⟩ 1 (96/100) [] [] []
    (by decide) (by decide)

/-- C7: for a fixed positive raw model output, the transformed
prediction is monotonically non-decreasing in the correction factor. -/
theorem C7_correction_monotone (raw c1 c2 : ℚ) (hraw : 0 < raw)
    (hc : c1 ≤ c2) : transformPred raw c1 ≤ transformPred raw c2 := by
  unfold transformPred
  exact Int.floor_mono (mul_le_mul_of_nonneg_left hc (le_max_of_le_left hraw.le))

/-- Witness for C7 at raw = 5, correction factors 1/2 ≤ 1. -/
theorem C7_witness : transformPred 5 (1/2) ≤ transformPred 5 1 :=
  C7_correction_monotone 5 (1/2) 1 (by norm_num) (by norm_num)

/-- C8: filtering a dimension by the set of all distinct values present
for it in the reference data yields exactly the same result as not
filtering that dimension, for each of Model, FuelType and Color. -/
theorem C8_full_filter_noop (a : Artifacts) (d : Date) (n : Nat) (cf : ℚ)
    (sm sf sc : List String) :
    run_forecast a d n cf (allModels a) sf sc =
        run_forecast a d n cf [] sf sc ∧
      run_forecast a d n cf sm (allFuels a) sc =
        run_forecast a d n cf sm [] sc ∧
      run_forecast a d n cf sm sf (allColors a) =
        run_forecast a d n cf sm sf [] := by
  refine ⟨?_, ?_, ?_⟩
  · unfold run_forecast
    refine forecastMonths_congr (fun m => ?_) _
    refine processMonth_assemble_congr (fun ph pl hph hpl => ?_)
    refine assembleMonth_all_models (fun p hp => ?_)
    exact List.mem_dedup.mpr
      (List.mem_map.mpr ⟨p.1, assemble_pairs_mem hph hpl p hp, rfl⟩)
  · unfold run_forecast
    refine forecastMonths_congr (fun m => ?_) _
    refine processMonth_assemble_congr (fun ph pl hph hpl => ?_)
    refine assembleMonth_all_fuels (fun p hp => ?_)
    exact List.mem_dedup.mpr
      (List.mem_map.mpr ⟨p.1, assemble_pairs_mem hph hpl p hp, rfl⟩)
  · unfold run_forecast
    refine forecastMonths_congr (fun m => ?_) _
    refine processMonth_assemble_congr (fun ph pl hph hpl => ?_)
    refine assembleMonth_all_colors (fun p hp => ?_)
    exact List.mem_dedup.mpr
      (List.mem_map.mpr ⟨p.1, assemble_pairs_mem hph hpl p hp, rfl⟩)

/-- C9: when a selected reference row lacks a column named in
`features`, `run_forecast` fails with a `FeatureMismatch` error raised
from the predict step (the pandas column selection inside the regressor
invocation); the error propagates to the caller. -/
theorem C9_feature_mismatch (a : Artifacts) (d : Date) (n : Nat) (cf : ℚ)
    (sm sf sc : List String) (r : Row) (f : String)
    (hr : r ∈ a.df_h_ext ++ a.df_l_ext)
    (hm : r.YearMonth ∈ monthRange d n)
    (hf : f ∈ a.features) (hl : lookupFeat r f = none) :
    ∃ c, run_forecast a d n cf sm sf sc = .error (.featureMismatch c) :=
  forecastMonths_error_of_mem hm (processMonth_error_of_missing hr rfl hf hl)

/-- Witness for C9: the fixture whose feature list names the absent
column "f2" fails with `FeatureMismatch`. -/
theorem C9_witness :
    ∃ c, run_forecast mismatchArtifacts ⟨2026, 1, 1⟩ 1 1 [] [] [] =
      .error (.featureMismatch c) :=
  C9_feature_mismatch mismatchArtifacts ⟨2026, 1, 1⟩ 1 1 [] [] [] testRow "f2"
    (by decide) (by decide) (by decide) rfl

/-- C10: the horizon enumerated by `run_forecast` has exactly
`n_months` consecutive month starts; when `start_month` is the first
day of a month the enumeration begins at that month, otherwise it
begins at the following month and the calendar month containing
`start_month` is never forecast. -/
theorem C10_month_enumeration (d : Date) (n : Nat) :
    (monthRange d n).length = n ∧
      (d.day = 1 →
        monthRange d n = (List.range n).map (fun i : Nat => monthIndex d + (i : Int))) ∧
      (d.day ≠ 1 →
        monthRange d n =
            (List.range n).map (fun i : Nat => (monthIndex d + 1) + (i : Int)) ∧
          monthIndex d ∉ monthRange d n) := by
  refine ⟨by simp [monthRange], fun h1 => by simp [monthRange, startIndex, h1],
    fun h1 => ⟨by simp [monthRange, startIndex, h1], fun hmem => ?_⟩⟩
  simp only [monthRange, startIndex, if_neg h1, List.mem_map,
    List.mem_range] at hmem
  obtain ⟨i, _, heq⟩ := hmem
  omega

/-- Witness for C10 at the non-aligned start 2026-01-15 with a
2-month horizon. -/
theorem C10_witness :
    (monthRange ⟨2026, 1, 15⟩ 2).length = 2 ∧
      monthIndex ⟨2026, 1, 15⟩ ∉ monthRange ⟨2026, 1, 15⟩ 2 :=
  ⟨(C10_month_enumeration ⟨2026, 1, 15⟩ 2).1,
    ((C10_month_enumeration ⟨2026, 1, 15⟩ 2).2.2 (by decide)).2⟩

end SalesForecast
